import Mathlib

/-!
Verification development for the tagtics in-page feedback widget
(src/src/index.ts, with the legacy widget variant embedded in
src/server/receiver.ts).

The client code is shallowly embedded: DOM trees become an inductive
type, JS strings become Lean strings (ASCII-faithful), JS objects used
as string maps become association lists with overwrite-on-assign
semantics, and the module-level mutable session state becomes an
explicit state record with one Lean function per source function.
-/

/-! ## JS string primitives -/

/-- JS `String.prototype.toLowerCase` restricted to ASCII (all strings the
widget compares are ASCII). -/
def jsToLower (s : String) : String := String.mk (s.data.map Char.toLower)

/-- Helper for `jsIncludes`: does `needle` occur as a contiguous run in the
haystack char list? -/
def strContainsAux (needle : List Char) : List Char → Bool
  | [] => needle.isEmpty
  | c :: rest => needle.isPrefixOf (c :: rest) || strContainsAux needle rest

/-- JS `String.prototype.includes` (substring test). -/
def jsIncludes (s sub : String) : Bool := strContainsAux sub.data s.data

/-- JS `String.prototype.substring(0, n)` (truncation; code-unit vs
code-point granularity does not matter for any claim proved here). -/
def jsSubstring0 (s : String) (n : Nat) : String := String.mk (s.data.take n)

/-! ## JS object-as-record primitives

`obj[k] = v` on a JS object overwrites the value when the key is present
and appends the key otherwise; `recordGet?` is property lookup. -/

def recordSet (m : List (String × String)) (k v : String) : List (String × String) :=
  if m.any (fun p => p.1 = k) then
    m.map (fun p => if p.1 = k then (k, v) else p)
  else
    m ++ [(k, v)]

def recordGet? (m : List (String × String)) (k : String) : Option String :=
  (m.find? (fun p => p.1 = k)).map (fun p => p.2)

/-! ## DOM model

A DOM node is an element (with tag name as exposed by `el.tagName`,
attribute list, the `isContentEditable` and `instanceof HTMLElement`
observations, the computed-style map read by `getComputedStyle`, and its
`childNodes`), a text node, or a comment node.  `el.id` is the `id`
attribute.  Distinct DOM nodes are distinct objects, so the source's
identity test `sibling === element` is modelled by the node's index among
its parent's childNodes. -/

inductive DomNode : Type where
  | element (tag : String) (attrs : List (String × String))
      (contentEditable : Bool) (isHTML : Bool)
      (styles : List (String × String)) (children : List DomNode)
  | text (s : String)
  | comment (s : String)

def DomNode.nodeTag : DomNode → String
  | .element t _ _ _ _ _ => t
  | _ => ""

/-- `el.id`: the `id` attribute, `""` when absent. -/
def DomNode.nodeId : DomNode → String
  | .element _ attrs _ _ _ _ => (recordGet? attrs "id").getD ""
  | _ => ""

/-- `node.nodeType === Node.ELEMENT_NODE`. -/
def DomNode.isElementNode : DomNode → Bool
  | .element _ _ _ _ _ _ => true
  | _ => false

/-- `child instanceof HTMLElement`. -/
def DomNode.isHTML : DomNode → Bool
  | .element _ _ _ h _ _ => h
  | _ => false

/-- `node.childNodes`. -/
def DomNode.childNodesOf : DomNode → List DomNode
  | .element _ _ _ _ _ cs => cs
  | _ => []

/-- Address a node in a tree by the list of childNodes indices from the
root. -/
def nodeAt : DomNode → List Nat → Option DomNode
  | n, [] => some n
  | n, i :: ps => ((DomNode.childNodesOf n)[i]?).bind (fun c => nodeAt c ps)

/-- A document context for `getXPath`: the root element (whose
`parentNode` is the Document, nodeType 9) and the childNodes path of
`document.body` when this tree is the live document (`none` for a
detached tree, where no node is `document.body`). -/
structure Doc where
  root : DomNode
  bodyPath : Option (List Nat)

/-! ## getXPath (src/src/index.ts lines 105-129) -/

/-- The sibling loop of `getXPath`: walk `parentNode.childNodes`, counting
(`ix`) the element siblings whose `tagName` equals the element's own,
until reaching the element itself (object identity, i.e. index `i0`),
then emit `parentPath + '/' + tag.toLowerCase() + '[' + (ix+1) + ']'`.
Falling off the end (impossible in a consistent DOM) returns `''`. -/
def siblingScan (tag parentPath : String) : List DomNode → Nat → Nat → String
  | [], _, _ => ""
  | s :: rest, i0, ix =>
    if i0 = 0 then
      parentPath ++ "/" ++ jsToLower tag ++ "[" ++ toString (ix + 1) ++ "]"
    else if s.isElementNode && s.nodeTag = tag then
      siblingScan tag parentPath rest (i0 - 1) (ix + 1)
    else
      siblingScan tag parentPath rest (i0 - 1) ix

/-- `getXPath(element)`.  The element is the node of `doc` addressed by
`path`.  `path = []` is the root element, whose `parentNode` is the
Document (nodeType 9), matching the source's fallback branch; for a
nonempty path the parent is the element addressed by `path.dropLast`. -/
def getXPath (doc : Doc) (path : List Nat) : String :=
  match nodeAt doc.root path with
  | none => ""
  | some el =>
    if el.nodeId ≠ "" then
      "//*[@id=\"" ++ el.nodeId ++ "\"]"
    else if doc.bodyPath = some path then
      "/html/body"
    else if hne : path = [] then
      jsToLower el.nodeTag
    else
      match path.getLast?, nodeAt doc.root path.dropLast with
      | some i, some parent =>
        if parent.isElementNode then
          siblingScan el.nodeTag (getXPath doc path.dropLast)
            parent.childNodesOf i 0
        else jsToLower el.nodeTag
      | _, _ => jsToLower el.nodeTag
termination_by path.length
decreasing_by
  simp only [List.length_dropLast]
  have h := List.length_pos.mpr hne
  omega

/-! ## Tree serializer (src/src/index.ts lines 132-178)

`serializeElement(el, depth, currentDepth = 0)` returns
`{ tag, attributes, text, styles, children }`. -/

inductive SerializedNode : Type where
  | mk (tag : String) (attributes : List (String × String)) (text : String)
      (styles : List (String × String)) (children : List SerializedNode)

def SerializedNode.tag : SerializedNode → String
  | .mk t _ _ _ _ => t

def SerializedNode.attributes : SerializedNode → List (String × String)
  | .mk _ a _ _ _ => a

def SerializedNode.text : SerializedNode → String
  | .mk _ _ x _ _ => x

def SerializedNode.styles : SerializedNode → List (String × String)
  | .mk _ _ _ s _ => s

def SerializedNode.children : SerializedNode → List SerializedNode
  | .mk _ _ _ _ cs => cs

/-- `const REDACT_ATTR_REGEX = /password|ssn|card|credit|cvv|pin/i` — a
case-insensitive substring test against these six words. -/
def REDACT_WORDS : List String := ["password", "ssn", "card", "credit", "cvv", "pin"]

def redactTest (name : String) : Bool :=
  REDACT_WORDS.any (fun w => jsIncludes (jsToLower name) w)

/-- One iteration of the attribute loop of the client `serializeElement`
(src/src/index.ts lines 139-148): redaction first; then the `value`
attribute of an input/textarea is replaced by the fixed placeholder
`'test value'`; everything else is copied verbatim.  (Note: `select` is
NOT in the `value` branch in the client.) -/
def serializeAttrsStep (tagName : String) (acc : List (String × String))
    (a : String × String) : List (String × String) :=
  if redactTest a.1 then recordSet acc a.1 "[REDACTED]"
  else if a.1 = "value" && (tagName = "input" || tagName = "textarea") then
    recordSet acc a.1 "test value"
  else recordSet acc a.1 a.2

def serializeAttrs (tagName : String) (attrs : List (String × String)) :
    List (String × String) :=
  attrs.foldl (serializeAttrsStep tagName) []

/-- One iteration of the attribute loop of the receiver-side copy of
`serializeElement` (src/server/receiver.ts lines 170-179): same redaction,
but the `value` attribute of an input/textarea/select is stripped
entirely. -/
def serializeAttrsStepReceiver (tagName : String) (acc : List (String × String))
    (a : String × String) : List (String × String) :=
  if redactTest a.1 then recordSet acc a.1 "[REDACTED]"
  else if a.1 = "value" &&
      (tagName = "input" || tagName = "textarea" || tagName = "select") then
    acc
  else recordSet acc a.1 a.2

def serializeAttrsReceiver (tagName : String) (attrs : List (String × String)) :
    List (String × String) :=
  attrs.foldl (serializeAttrsStepReceiver tagName) []

mutual
/-- `el.textContent`: concatenation of all descendant text nodes
(comments excluded). -/
def textContentOf : DomNode → String
  | .element _ _ _ _ _ cs => textContentList cs
  | .text s => s
  | .comment _ => ""
def textContentList : List DomNode → String
  | [] => ""
  | c :: cs => textContentOf c ++ textContentList cs
end

def STYLE_KEYS : List String :=
  ["display", "position", "width", "height", "margin", "padding",
   "background-color", "color", "font-size", "font-family", "border",
   "border-radius", "box-shadow", "overflow", "text-align"]

/-- `getComputedStyle(el).getPropertyValue(key)` (`""` for an absent
property, as in the DOM). -/
def styleGet (styles : List (String × String)) (key : String) : String :=
  (recordGet? styles key).getD ""

/-- The style loop: collect the fixed allow-list, skipping any value that
contains the substring `data:`. -/
def serializeStyles (styles : List (String × String)) : List (String × String) :=
  STYLE_KEYS.foldl
    (fun acc key =>
      let val := styleGet styles key
      if !(jsIncludes val "data:") then recordSet acc key val else acc)
    []

mutual
/-- `serializeElement` (client, src/src/index.ts 132-178).  `el.children`
is the element-children list; recursion descends only into children that
are elements and `instanceof HTMLElement`, and only while
`currentDepth < depth`, passing `currentDepth + 1`.  For a non-element
argument (never produced by the source, which types `el : HTMLElement`)
an empty node is returned. -/
def serializeElement (el : DomNode) (depth currentDepth : Int) : SerializedNode :=
  match el with
  | .element tagU attrs ce _ sty kids =>
    let tagName := jsToLower tagU
    let attributes := serializeAttrs tagName attrs
    let elementChildren := kids.filter DomNode.isElementNode
    let text :=
      if elementChildren.length = 0 && tagName ≠ "input" && tagName ≠ "textarea"
          && tagName ≠ "select" && !ce then
        jsSubstring0 (textContentOf el) 200
      else ""
    let styles := serializeStyles sty
    let children :=
      if currentDepth < depth then serializeChildren kids depth (currentDepth + 1)
      else []
    SerializedNode.mk tagName attributes text styles children
  | .text _ => SerializedNode.mk "" [] "" [] []
  | .comment _ => SerializedNode.mk "" [] "" [] []
def serializeChildren (ls : List DomNode) (depth currentDepth : Int) :
    List SerializedNode :=
  match ls with
  | [] => []
  | c :: cs =>
    if c.isElementNode && c.isHTML then
      serializeElement c depth currentDepth :: serializeChildren cs depth currentDepth
    else serializeChildren cs depth currentDepth
end

mutual
/-- Nesting depth of a serialized node: 0 when `children` is empty, one
more than the deepest child otherwise. -/
def snHeight : SerializedNode → Nat
  | .mk _ _ _ _ cs => snHeightList cs
def snHeightList : List SerializedNode → Nat
  | [] => 0
  | c :: cs => max (1 + snHeight c) (snHeightList cs)
end

mutual
/-- Decidable check that, in every node of a serialized tree, every
attribute entry whose name matches the redaction pattern carries the
literal value `[REDACTED]`. -/
def snRedactionOK : SerializedNode → Bool
  | .mk _ attrs _ _ cs =>
    attrs.all (fun p => !redactTest p.1 || p.2 == "[REDACTED]") && snRedactionOKList cs
def snRedactionOKList : List SerializedNode → Bool
  | [] => true
  | c :: cs => snRedactionOK c && snRedactionOKList cs
end

/-! ## Payment-page heuristic classifier (src/src/index.ts lines 21-70)

The classifier reads the current URL and document.  A `Page` records the
observations the source makes: `location.href`, `location.pathname`, the
`src` of every `<script>` (`""` when absent, which is falsy in JS), the
four attributes read from every input/select/textarea (`getAttribute(x)
|| ''` collapses a missing attribute to `""`), and for every `<iframe>`
whether reading `contentDocument` throws and, if not, whether it is
non-null. -/

structure FormControl where
  name : String
  id : String
  placeholder : String
  ariaLabel : String

structure IFrameObs where
  accessThrows : Bool
  hasContentDocument : Bool

structure Page where
  href : String
  pathname : String
  scriptSrcs : List String
  formControls : List FormControl
  iframes : List IFrameObs

def PAYMENT_KEYWORDS : List String :=
  ["checkout", "payment", "pay", "billing", "order", "purchase", "invoice",
   "subscribe"]

def PAYMENT_PROVIDERS : List String :=
  ["stripe.com", "paypal.com", "braintreepayments.com", "square.com",
   "adyen.com", "razorpay.com"]

/-- `SENSITIVE_INPUT_PATTERNS = /card|cc-|cvv|cvc|expiry|billing|cardholder/i`
— case-insensitive substring test. -/
def SENSITIVE_INPUT_WORDS : List String :=
  ["card", "cc-", "cvv", "cvc", "expiry", "billing", "cardholder"]

def sensitivePatternTest (s : String) : Bool :=
  SENSITIVE_INPUT_WORDS.any (fun w => jsIncludes (jsToLower s) w)

/-- `isCrossOrigin(iframe)`: `!iframe.contentDocument`, with a thrown
access (cross-origin security error) caught and treated as `true`. -/
def isCrossOrigin (f : IFrameObs) : Bool :=
  if f.accessThrows then true else !f.hasContentDocument

/-- `isLikelyPaymentPage()` (src/src/index.ts lines 26-62), with the
source's early-`return true` loops rendered as `List.any`. -/
def isLikelyPaymentPage (p : Page) : Bool :=
  let url := jsToLower p.href
  if PAYMENT_KEYWORDS.any (fun kw => jsIncludes url kw) then true
  else if p.scriptSrcs.any
      (fun src => src ≠ "" && PAYMENT_PROVIDERS.any (fun pr => jsIncludes src pr)) then
    true
  else if p.formControls.any
      (fun inp => sensitivePatternTest inp.name || sensitivePatternTest inp.id
        || sensitivePatternTest inp.placeholder || sensitivePatternTest inp.ariaLabel) then
    true
  else if p.iframes.any isCrossOrigin then true
  else false

/-! Named restatements of the classifier's four rules, one definition per
rule, used to state that the result is exactly their disjunction. -/

/-- Rule 1: the lower-cased URL contains a payment keyword. -/
def ruleUrlKeyword (p : Page) : Bool :=
  PAYMENT_KEYWORDS.any (fun kw => jsIncludes (jsToLower p.href) kw)

/-- Rule 2: some script has a non-empty `src` containing a payment-
processor domain. -/
def ruleProviderScript (p : Page) : Bool :=
  p.scriptSrcs.any
    (fun src => src ≠ "" && PAYMENT_PROVIDERS.any (fun pr => jsIncludes src pr))

/-- Rule 3: some input/select/textarea has a name, id, placeholder or
aria-label matching the payment-term pattern. -/
def ruleSensitiveControl (p : Page) : Bool :=
  p.formControls.any
    (fun inp => sensitivePatternTest inp.name || sensitivePatternTest inp.id
      || sensitivePatternTest inp.placeholder || sensitivePatternTest inp.ariaLabel)

/-- Rule 4: some iframe is cross-origin. -/
def ruleCrossOriginIframe (p : Page) : Bool :=
  p.iframes.any isCrossOrigin

/-! ## Configuration, visibility policy and init (src/src/index.ts 743-835)

`new RegExp(pattern).test(path)` is a host API; it is modelled by an
oracle `rx : String → String → Option Bool` where `none` means the
`RegExp` constructor threw (invalid pattern) — the source catches that
per pattern and treats the pattern as non-matching. -/

structure TagticsConfig where
  apiKey : String
  includePaths : Option (List String)
  excludePaths : Option (List String)
  allowSensitivePages : Bool
  testingMode : Bool

/-- `shouldShowOnCurrentPath()` (src/src/index.ts lines 743-776):
exclude patterns first (any match hides the widget), then — when
`includePaths` is supplied and non-empty — at least one include pattern
must match, then the sensitivity gate.  A `some []` for either field is
a truthy empty array in JS: its loop body never runs. -/
def shouldShowOnCurrentPath (rx : String → String → Option Bool)
    (cfg : TagticsConfig) (p : Page) : Bool :=
  let path := p.pathname
  if (match cfg.excludePaths with
      | some pats => pats.any (fun pat => (rx pat path).getD false)
      | none => false) then
    false
  else if (match cfg.includePaths with
      | some pats =>
        decide (0 < pats.length) && !(pats.any (fun pat => (rx pat path).getD false))
      | none => false) then
    false
  else if isLikelyPaymentPage p && !cfg.allowSensitivePages then false
  else true

/-- Spec-side restatement: does some exclude pattern match the path? -/
def excludeHit (rx : String → String → Option Bool) (cfg : TagticsConfig)
    (path : String) : Bool :=
  match cfg.excludePaths with
  | some pats => pats.any (fun pat => (rx pat path).getD false)
  | none => false

/-- Spec-side restatement: is a non-empty include list supplied with no
pattern matching the path? -/
def includeMiss (rx : String → String → Option Bool) (cfg : TagticsConfig)
    (path : String) : Bool :=
  match cfg.includePaths with
  | some pats =>
    decide (0 < pats.length) && !(pats.any (fun pat => (rx pat path).getD false))
  | none => false

/-- Outcome of `init(config)` as observed by the host page: whether init
returned early with a diagnostic (`console.error`) and whether the
widget host element was rendered. -/
structure InitResult where
  aborted : Bool
  widgetShown : Bool

/-- `init(c)` (src/src/index.ts lines 802-835): the only configuration
check is a missing/empty `apiKey`; otherwise the config is stored and
`updateWidgetVisibility()` runs, which (with no host element yet) calls
`open()` exactly when `shouldShowOnCurrentPath()` is true.  The SPA
history patching does not affect these two observations. -/
def init (rx : String → String → Option Bool) (cfg : TagticsConfig) (p : Page) :
    InitResult :=
  if cfg.apiKey = "" then { aborted := true, widgetShown := false }
  else { aborted := false, widgetShown := shouldShowOnCurrentPath rx cfg p }

/-! ## Feedback submission (src/src/index.ts lines 652-726)

`sendFeedback` is async; the only effects whose order and presence the
claims concern are: closing the editing UI (`closeModal()`), the single
`fetch` POST, and the outcome toast.  The network outcome is
`Except Unit Unit` — `.error` when the `fetch` promise rejects (caught
by the source's `try/catch`); the source never reads the resolved
response.  The inductive `Effect` also provides constructors for the
behaviours the claims rule out (retry, queueing, persisting), which the
function must be seen never to emit. -/

inductive Effect where
  | closeModalFx
  | fetchSend
  | toastSuccess
  | toastError
  | retrySend
  | enqueueReport
  | persistReport
deriving DecidableEq

/-- The editing-UI state touched by `closeModal()` (src/src/index.ts
lines 728-739): the modal is hidden, the selection highlight removed,
the selected-element reference and the textarea cleared, the FAB
restored. -/
structure UIState where
  modalOpen : Bool
  selectedElement : Option String
  selectionHighlight : Bool
  textareaValue : String
  fabVisible : Bool
deriving DecidableEq

def closeModal (ui : UIState) : UIState :=
  { ui with modalOpen := false, selectionHighlight := false,
            selectedElement := none, textareaValue := "", fabVisible := true }

/-- `sendFeedback(text)` (src/src/index.ts lines 652-726): returns early
when no config is set; otherwise builds the payload (pure DOM reads,
not modelled), closes the modal optimistically BEFORE the network call,
performs the single `fetch`, and shows a success toast when the promise
resolves or an error toast when it rejects.  No retry, queueing or
persistence exists in the source. -/
def sendFeedback (hasConfig : Bool) (ui : UIState) (net : Except Unit Unit) :
    UIState × List Effect :=
  if !hasConfig then (ui, [])
  else
    let ui2 := closeModal ui
    match net with
    | .ok _ => (ui2, [.closeModalFx, .fetchSend, .toastSuccess])
    | .error _ => (ui2, [.closeModalFx, .fetchSend, .toastError])

/-! ## Picking session lifecycle (src/src/index.ts 414-587, 1035-1065)

The fields of `WidgetState` are the module/global variables that the
suppression claim concerns: `hostElement !== null`, `isPicking`,
`window._tagticsBlocker` (the capturing keydown/keyup/keypress/
mousedown/mouseup/touchstart/touchend/focus/focusin suppressor installed
by `blockEvents()`), `window._tagticsHandlers` (the pick-mode
mouseover/click/resize handlers), and whether the 50 ms `setTimeout`
scheduled by `startPicking` is still pending. -/

structure WidgetState where
  hostPresent : Bool
  isPicking : Bool
  blockerInstalled : Bool
  handlersInstalled : Bool
  pendingAttach : Bool
deriving DecidableEq

/-- `blockEvents()` (lines 414-438): installs the capturing suppression
handler on `window` and stores it in `window._tagticsBlocker`. -/
def blockEvents (s : WidgetState) : WidgetState :=
  { s with blockerInstalled := true }

/-- `unblockEvents()` (lines 440-446): removes the handlers stored in
`window._tagticsBlocker`, if present. -/
def unblockEvents (s : WidgetState) : WidgetState :=
  { s with blockerInstalled := false }

/-- `startPicking()` (lines 467-567): sets `isPicking`, calls
`blockEvents()` immediately, and defers attaching the pick-mode
listeners (and storing `window._tagticsHandlers`) by a 50 ms
`setTimeout` so the triggering click is not captured. -/
def startPicking (s : WidgetState) : WidgetState :=
  blockEvents { s with isPicking := true, pendingAttach := true }

/-- The deferred callback from `startPicking`'s `setTimeout` firing:
attaches the listeners and stores `window._tagticsHandlers`.  The
timeout is never cleared, so it fires even after `destroy()`. -/
def attachTimeoutFires (s : WidgetState) : WidgetState :=
  if s.pendingAttach then
    { s with pendingAttach := false, handlersInstalled := true }
  else s

/-- `stopPicking(proceedToModal)` (lines 569-587): clears `isPicking`,
calls `unblockEvents()`, and removes the pick-mode listeners when
`window._tagticsHandlers` is present.  (The modal/FAB consequences are
not tracked here.) -/
def stopPicking (s : WidgetState) : WidgetState :=
  let s1 := unblockEvents { s with isPicking := false }
  if s1.handlersInstalled then { s1 with handlersInstalled := false } else s1

/-- `destroy()` (lines 1035-1065): when a host element exists, removes it
and then calls `stopPicking(false)` ONLY IF `window._tagticsHandlers`
exists; otherwise the blocker installed by `startPicking` is left in
place. -/
def destroy (s : WidgetState) : WidgetState :=
  if s.hostPresent then
    let s1 := { s with hostPresent := false }
    if s1.handlersInstalled then stopPicking s1 else s1
  else s

/-- The widget just opened, idle: host present, not picking, nothing
installed. -/
def openIdleState : WidgetState :=
  { hostPresent := true, isPicking := false, blockerInstalled := false,
    handlersInstalled := false, pendingAttach := false }

/-! ## Concrete example inputs used by witnesses and counterexamples -/

/-- A `<select value="secret123">` element. -/
def selectSecret : DomNode :=
  .element "SELECT" [("value", "secret123")] false true [] []

/-- A lone `<div id="my-id">` document. -/
def elMyId : DomNode := .element "DIV" [("id", "my-id")] false true [] []

def docMyId : Doc := { root := elMyId, bodyPath := none }

/-- A `<div>` containing `<span>`, a text node, `<div>`, `<span>` — the
second `<span>` sits at childNodes index 3 and positional index 2 among
same-tag element siblings. -/
def spanA : DomNode := .element "SPAN" [] false true [] []

def divB : DomNode := .element "DIV" [] false true [] []

def siblingParent : DomNode :=
  .element "DIV" [] false true [] [spanA, .text "hi", divB, spanA]

def docSiblings : Doc := { root := siblingParent, bodyPath := none }

/-- A detached `<div>` with no id: no element parent, not `document.body`. -/
def docDetached : Doc :=
  { root := .element "DIV" [] false true [] [], bodyPath := none }

/-- A configuration supplying BOTH `includePaths` and `excludePaths`. -/
def cfgBoth : TagticsConfig :=
  { apiKey := "k", includePaths := some [".*"], excludePaths := some ["^/admin"],
    allowSensitivePages := false, testingMode := false }

/-- A concrete `RegExp.test` oracle for the two patterns of `cfgBoth`:
`.*` matches every path, `^/admin` matches paths starting with
`/admin`. -/
def rxConcrete (pat path : String) : Option Bool :=
  if pat = ".*" then some true
  else if pat = "^/admin" then some (path.startsWith "/admin")
  else none

/-- A plain, signal-free page at path `/a`. -/
def plainPage : Page :=
  { href := "https://ex.test/a", pathname := "/a", scriptSrcs := [],
    formControls := [], iframes := [] }

/-! # Theorems -/

/-! ## Record (JS object) lemmas -/

theorem mem_recordSet {m : List (String × String)} {k v : String}
    {q : String × String} (h : q ∈ recordSet m k v) : q ∈ m ∨ q = (k, v) := by
  unfold recordSet at h
  by_cases hany : m.any (fun p => p.1 = k) = true
  · rw [if_pos hany] at h
    rcases List.mem_map.mp h with ⟨p, hpm, hpq⟩
    by_cases hpk : p.1 = k
    · right
      rw [if_pos hpk] at hpq
      exact hpq.symm
    · left
      rw [if_neg hpk] at hpq
      exact hpq ▸ hpm
  · rw [if_neg hany] at h
    rcases List.mem_append.mp h with hin | hone
    · exact Or.inl hin
    · exact Or.inr (List.mem_singleton.mp hone)

/-! ## Attribute redaction lemmas (client serializer) -/

theorem serializeAttrs_foldl_inv (tag : String) :
    ∀ (attrs acc : List (String × String)),
      (∀ q ∈ acc, redactTest q.1 = true → q.2 = "[REDACTED]") →
      ∀ q ∈ attrs.foldl (serializeAttrsStep tag) acc,
        redactTest q.1 = true → q.2 = "[REDACTED]"
  | [], _, hacc => hacc
  | a :: as, acc, hacc => by
    simp only [List.foldl_cons]
    apply serializeAttrs_foldl_inv tag as
    intro q hq hred
    unfold serializeAttrsStep at hq
    by_cases h1 : redactTest a.1 = true
    · rw [if_pos h1] at hq
      rcases mem_recordSet hq with hin | hqe
      · exact hacc q hin hred
      · rw [hqe]
    · rw [if_neg h1] at hq
      by_cases h2 :
          (a.1 = "value" && (tag = "input" || tag = "textarea") : Bool) = true
      · rw [if_pos h2] at hq
        rcases mem_recordSet hq with hin | hqe
        · exact hacc q hin hred
        · rw [hqe] at hred
          exact absurd hred h1
      · rw [if_neg h2] at hq
        rcases mem_recordSet hq with hin | hqe
        · exact hacc q hin hred
        · rw [hqe] at hred
          exact absurd hred h1

theorem serializeAttrs_redacted (tag : String) (attrs : List (String × String)) :
    ∀ q ∈ serializeAttrs tag attrs, redactTest q.1 = true → q.2 = "[REDACTED]" :=
  serializeAttrs_foldl_inv tag attrs [] (by intro q hq; simp at hq)

theorem serializeAttrs_all_redactionOK (tag : String)
    (attrs : List (String × String)) :
    (serializeAttrs tag attrs).all
      (fun p => !redactTest p.1 || p.2 == "[REDACTED]") = true := by
  rw [List.all_eq_true]
  intro p hp
  by_cases h : redactTest p.1 = true
  · have hv := serializeAttrs_redacted tag attrs p hp h
    simp [hv]
  · have h0 : redactTest p.1 = false := by
      cases hb : redactTest p.1
      · rfl
      · exact absurd hb h
    simp [h0]

mutual
theorem redactionOK_aux : ∀ (el : DomNode) (d cd : Int),
    snRedactionOK (serializeElement el d cd) = true
  | .element tagU attrs ce ih sty kids, d, cd => by
    rw [serializeElement]
    simp only [snRedactionOK, Bool.and_eq_true]
    constructor
    · exact serializeAttrs_all_redactionOK _ _
    · by_cases h : cd < d
      · rw [if_pos h]
        exact redactionOKList_aux kids d (cd + 1)
      · rw [if_neg h]
        rfl
  | .text _, _, _ => rfl
  | .comment _, _, _ => rfl
theorem redactionOKList_aux : ∀ (ls : List DomNode) (d cd : Int),
    snRedactionOKList (serializeChildren ls d cd) = true
  | [], _, _ => rfl
  | c :: cs, d, cd => by
    rw [serializeChildren]
    by_cases h : (c.isElementNode && c.isHTML) = true
    · rw [if_pos h]
      simp only [snRedactionOKList, Bool.and_eq_true]
      exact ⟨redactionOK_aux c d cd, redactionOKList_aux cs d cd⟩
    · rw [if_neg h]
      exact redactionOKList_aux cs d cd
end

/-! ## Depth-bound lemmas for the serializer -/

mutual
theorem snHeight_aux : ∀ (el : DomNode) (d cd : Int),
    snHeight (serializeElement el d cd) ≤ (d - cd).toNat
  | .element tagU attrs ce ih sty kids, d, cd => by
    rw [serializeElement]
    simp only [snHeight]
    by_cases h : cd < d
    · rw [if_pos h]
      have hb := snHeightList_aux kids d (cd + 1)
      have : (d - (cd + 1)).toNat + 1 ≤ (d - cd).toNat := by omega
      omega
    · rw [if_neg h]
      exact Nat.zero_le _
  | .text _, _, _ => Nat.zero_le _
  | .comment _, _, _ => Nat.zero_le _
theorem snHeightList_aux : ∀ (ls : List DomNode) (d cd : Int),
    snHeightList (serializeChildren ls d cd) ≤ (d - cd).toNat + 1
  | [], _, _ => Nat.zero_le _
  | c :: cs, d, cd => by
    rw [serializeChildren]
    by_cases h : (c.isElementNode && c.isHTML) = true
    · rw [if_pos h]
      simp only [snHeightList]
      have h1 := snHeight_aux c d cd
      have h2 := snHeightList_aux cs d cd
      omega
    · rw [if_neg h]
      exact snHeightList_aux cs d cd
end

/-! ## Claim theorems: lifecycle and serializer -/

/-- C1: the claim that every exit from pick mode removes the global event
suppression fails in the code: `startPicking` installs the blocker
immediately, but `destroy()` removes it only via `stopPicking`, which it
calls only when `window._tagticsHandlers` exists — and that is set only
by the 50 ms deferred `setTimeout`.  Calling `destroy()` in that window
leaves the capturing keyboard/mouse/touch/focus suppression installed
forever: subsequent clicks on the page are still swallowed. -/
theorem destroy_mid_pick_leaves_suppression_installed :
    (startPicking openIdleState).blockerInstalled = true
      ∧ (destroy (startPicking openIdleState)).hostPresent = false
      ∧ (destroy (startPicking openIdleState)).blockerInstalled = true :=
  ⟨rfl, rfl, rfl⟩

/-- Supporting fact: `stopPicking` itself always removes the
suppression, so every exit path that does reach `stopPicking` (Escape,
selection click, resize, destroy after the listeners attached) restores
interaction. -/
theorem stopPicking_removes_suppression (s : WidgetState) :
    (stopPicking s).blockerInstalled = false := by
  cases s with
  | mk h i b ha p => cases ha <;> rfl

/-- Supporting fact: once the deferred listener attachment has fired,
`destroy()` does remove the suppression. -/
theorem destroy_after_attach_removes_suppression :
    (destroy (attachTimeoutFires (startPicking openIdleState))).blockerInstalled
      = false := rfl

/-- C2: the claim that a `value` attribute on an input/textarea/select is
never serialized with its original content fails for `select`: the
client's `value` branch covers only `input` and `textarea`, so a
`<select value="secret123">` is serialized with the original value
verbatim — while the receiver-side copy of the same function strips it,
showing the intended behaviour. -/
theorem serializeElement_select_value_not_stripped :
    recordGet? (serializeElement selectSecret 0 0).attributes "value"
        = some "secret123"
      ∧ recordGet? (serializeAttrsReceiver "select" [("value", "secret123")]) "value"
        = none :=
  ⟨rfl, rfl⟩

/-- Supporting fact: for an input the client stores the fixed placeholder
`'test value'`, never the typed content. -/
theorem serializeAttrs_input_value_placeholder :
    recordGet? (serializeAttrs "input" [("value", "secret123")]) "value"
      = some "test value" := rfl

/-- C3: at every recursion depth of `serializeElement`, every attribute
whose name matches the redaction pattern set (password, ssn, card,
credit, cvv, pin — case-insensitive substring) is mapped to the literal
string `[REDACTED]`, never to its original value. -/
theorem serializeElement_redacts_sensitive_attributes (el : DomNode) (d cd : Int) :
    snRedactionOK (serializeElement el d cd) = true :=
  redactionOK_aux el d cd

/-- C10: `serializeElement` is a total function of the finite DOM subtree
(defined by structural recursion, so it terminates), and the serialized
tree nests children at most `max(depth - currentDepth, 0)` levels deep:
recursion descends only into element children, only while
`currentDepth < depth`, incrementing `currentDepth` under the same
`depth` ceiling. -/
theorem serializeElement_depth_bound (el : DomNode) (depth currentDepth : Int) :
    snHeight (serializeElement el depth currentDepth)
      ≤ (depth - currentDepth).toNat :=
  snHeight_aux el depth currentDepth

/-! ## getXPath lemmas -/

theorem nodeAt_concat (r : DomNode) (ps : List Nat) (i : Nat) :
    nodeAt r (ps ++ [i])
      = (nodeAt r ps).bind (fun n => n.childNodesOf[i]?) := by
  induction ps generalizing r with
  | nil =>
    show nodeAt r [i] = _
    cases h : r.childNodesOf[i]? <;> simp [nodeAt, h]
  | cons p ps ih =>
    show nodeAt r (p :: (ps ++ [i])) = _
    cases h : r.childNodesOf[p]? <;> simp [nodeAt, h, ih]

theorem siblingScan_spec (tag px : String) :
    ∀ (sibs : List DomNode) (i ix : Nat), i < sibs.length →
      siblingScan tag px sibs i ix
        = px ++ "/" ++ jsToLower tag ++ "["
            ++ toString (ix + ((sibs.take i).filter
                (fun s => s.isElementNode && s.nodeTag = tag)).length + 1) ++ "]"
  | [], i, ix, h => absurd h (by simp)
  | s :: rest, 0, ix, h => by simp [siblingScan]
  | s :: rest, i + 1, ix, h => by
    rw [siblingScan, if_neg (by omega), List.take_succ_cons, List.filter_cons]
    simp only [Nat.add_sub_cancel]
    by_cases hc : (s.isElementNode && s.nodeTag = tag) = true
    · rw [if_pos hc, if_pos hc, List.length_cons,
        siblingScan_spec tag px rest i (ix + 1) (by simpa using h)]
      have harith :
          ix + 1 + ((rest.take i).filter
              (fun s => s.isElementNode && s.nodeTag = tag)).length + 1
            = ix + (((rest.take i).filter
                (fun s => s.isElementNode && s.nodeTag = tag)).length + 1) + 1 := by
        omega
      rw [harith]
    · rw [if_neg hc, if_neg hc,
        siblingScan_spec tag px rest i ix (by simpa using h)]

/-- C7: for any element whose `id` attribute is non-empty, `getXPath`
returns exactly the ID-anchored form, regardless of the element's
position in the tree and without consulting its ancestors. -/
theorem getXPath_id_anchored (doc : Doc) (path : List Nat) (el : DomNode)
    (hel : nodeAt doc.root path = some el) (hid : el.nodeId ≠ "") :
    getXPath doc path = "//*[@id=\"" ++ el.nodeId ++ "\"]" := by
  unfold getXPath
  rw [hel]
  simp [hid]

/-- Witness for C7 at a concrete `<div id="my-id">`. -/
theorem getXPath_id_anchored_witness :
    nodeAt docMyId.root [] = some elMyId ∧ elMyId.nodeId ≠ ""
      ∧ getXPath docMyId [] = "//*[@id=\"" ++ elMyId.nodeId ++ "\"]" :=
  ⟨rfl, by decide, getXPath_id_anchored docMyId [] elMyId rfl (by decide)⟩

/-- C8: for an id-less element that is not `document.body` and sits at
childNodes index `i` under its parent, `getXPath` returns the parent's
own path followed by `/<tag>[k]` where `k` is one plus the number of
earlier element-type siblings with the same tag name — differently
tagged siblings and non-element sibling nodes do not affect the
index. -/
theorem getXPath_positional_index (doc : Doc) (ps : List Nat) (i : Nat)
    (parent el : DomNode)
    (hp : nodeAt doc.root ps = some parent)
    (hc : parent.childNodesOf[i]? = some el)
    (hid : el.nodeId = "")
    (hnb : doc.bodyPath ≠ some (ps ++ [i])) :
    getXPath doc (ps ++ [i])
      = getXPath doc ps ++ "/" ++ jsToLower el.nodeTag ++ "["
          ++ toString (((parent.childNodesOf.take i).filter
              (fun s => s.isElementNode && s.nodeTag = el.nodeTag)).length + 1)
          ++ "]" := by
  have hpe : parent.isElementNode = true := by
    cases parent with
    | element t a c h st k => rfl
    | text s => simp [DomNode.childNodesOf] at hc
    | comment s => simp [DomNode.childNodesOf] at hc
  have hel : nodeAt doc.root (ps ++ [i]) = some el := by
    rw [nodeAt_concat, hp]
    simpa using hc
  have hlt : i < parent.childNodesOf.length :=
    (List.getElem?_eq_some.mp hc).choose
  conv_lhs => unfold getXPath
  rw [hel]
  simp only [hid, ne_eq, not_true_eq_false, if_false, if_neg hnb,
    dif_neg (show ¬(ps ++ [i] = []) by simp),
    List.getLast?_concat, List.dropLast_concat, hp, if_pos hpe]
  rw [siblingScan_spec el.nodeTag (getXPath doc ps) parent.childNodesOf i 0 hlt]
  have harith :
      0 + ((parent.childNodesOf.take i).filter
          (fun s => s.isElementNode && s.nodeTag = el.nodeTag)).length + 1
        = ((parent.childNodesOf.take i).filter
            (fun s => s.isElementNode && s.nodeTag = el.nodeTag)).length + 1 := by
    omega
  rw [harith]

/-- Witness for C8: the second `<span>` among childNodes
`span, text, div, span` of an id-less `<div>` root gets index 2. -/
theorem getXPath_positional_index_witness :
    nodeAt docSiblings.root [] = some siblingParent
      ∧ siblingParent.childNodesOf[3]? = some spanA
      ∧ spanA.nodeId = ""
      ∧ docSiblings.bodyPath ≠ some ([] ++ [3])
      ∧ getXPath docSiblings ([] ++ [3])
          = getXPath docSiblings [] ++ "/" ++ jsToLower spanA.nodeTag ++ "["
              ++ toString (((siblingParent.childNodesOf.take 3).filter
                  (fun s => s.isElementNode && s.nodeTag = spanA.nodeTag)).length + 1)
              ++ "]" :=
  ⟨rfl, rfl, by decide, by decide,
    getXPath_positional_index docSiblings [] 3 siblingParent spanA rfl rfl
      (by decide) (by decide)⟩

/-- C9 counterexample: the claim says `getXPath` returns the empty string
for an element with no element-type parent, no non-empty id, that is not
`document.body`; the code instead returns the lower-cased tag name — a
detached `<div>` yields `"div"`, not `""`. -/
theorem getXPath_detached_not_empty :
    getXPath docDetached [] = "div" ∧ "div" ≠ "" := by
  constructor
  · simp [getXPath, docDetached, nodeAt, DomNode.nodeId, DomNode.nodeTag,
      recordGet?, jsToLower]
  · decide

/-- C9 amended: for an element with no element-type parent (root or
detached), no non-empty id, that is not `document.body`, `getXPath`
returns the element's lower-cased tag name. -/
theorem getXPath_rootlike_returns_tag (doc : Doc)
    (hid : doc.root.nodeId = "") (hnb : doc.bodyPath ≠ some []) :
    getXPath doc [] = jsToLower doc.root.nodeTag := by
  unfold getXPath
  simp [nodeAt, hid, hnb]

/-- Witness for the amended C9 at the id-less `<div>` root of
`docSiblings`. -/
theorem getXPath_rootlike_returns_tag_witness :
    (docSiblings.root.nodeId = "" ∧ docSiblings.bodyPath ≠ some [])
      ∧ getXPath docSiblings [] = jsToLower docSiblings.root.nodeTag :=
  ⟨⟨by decide, by decide⟩,
    getXPath_rootlike_returns_tag docSiblings (by decide) (by decide)⟩

/-! ## Classifier, init and submission claims -/

theorem boolIfChain (a b c d : Bool) :
    (if a then true else if b then true else if c then true else if d then true
      else false)
      = (a || b || c || d) := by
  cases a <;> cases b <;> cases c <;> cases d <;> rfl

/-- C5: `isLikelyPaymentPage` is exactly the disjunction of its four
rules — URL keyword, payment-provider script, sensitive form control,
cross-origin iframe — and, the disjunction being symmetric, the order of
evaluation does not change the boolean outcome (stated via the reversed
order). -/
theorem isLikelyPaymentPage_eq_rule_disjunction (p : Page) :
    isLikelyPaymentPage p
        = (ruleUrlKeyword p || ruleProviderScript p || ruleSensitiveControl p
            || ruleCrossOriginIframe p)
      ∧ isLikelyPaymentPage p
        = (ruleCrossOriginIframe p || ruleSensitiveControl p || ruleProviderScript p
            || ruleUrlKeyword p) := by
  have h1 : isLikelyPaymentPage p
      = (ruleUrlKeyword p || ruleProviderScript p || ruleSensitiveControl p
          || ruleCrossOriginIframe p) := by
    unfold isLikelyPaymentPage ruleUrlKeyword ruleProviderScript
      ruleSensitiveControl ruleCrossOriginIframe
    exact boolIfChain _ _ _ _
  refine ⟨h1, ?_⟩
  rw [h1]
  cases ruleUrlKeyword p <;> cases ruleProviderScript p <;>
    cases ruleSensitiveControl p <;> cases ruleCrossOriginIframe p <;> rfl

/-- The visibility policy as the conjunction of its three gates. -/
theorem shouldShow_eq_gates (rx : String → String → Option Bool)
    (cfg : TagticsConfig) (p : Page) :
    shouldShowOnCurrentPath rx cfg p
      = (!excludeHit rx cfg p.pathname && (!includeMiss rx cfg p.pathname
          && !(isLikelyPaymentPage p && !cfg.allowSensitivePages))) := by
  simp only [shouldShowOnCurrentPath, excludeHit, includeMiss]
  generalize (match cfg.excludePaths with
    | some pats => pats.any fun pat => (rx pat p.pathname).getD false
    | none => false) = a
  generalize (match cfg.includePaths with
    | some pats =>
      decide (0 < pats.length) && !(pats.any fun pat => (rx pat p.pathname).getD false)
    | none => false) = b
  generalize (isLikelyPaymentPage p && !cfg.allowSensitivePages) = c
  cases a <;> cases b <;> cases c <;> rfl

/-- C4 counterexample: a configuration supplying BOTH `includePaths` and
`excludePaths` is not rejected — `init` records no diagnostic and the
widget renders on a plain page whose path passes both filters. -/
theorem init_accepts_both_include_and_exclude :
    cfgBoth.includePaths.isSome = true ∧ cfgBoth.excludePaths.isSome = true
      ∧ (init rxConcrete cfgBoth plainPage).aborted = false
      ∧ (init rxConcrete cfgBoth plainPage).widgetShown = true :=
  ⟨rfl, rfl, rfl, rfl⟩

/-- C4 amended: `init` rejects only a missing/empty `apiKey`; with any
other configuration (in particular with both `includePaths` and
`excludePaths` supplied) it does not abort, and the widget renders
exactly when the path matches no exclude pattern, a supplied non-empty
include list has a matching pattern, and the sensitivity gate passes. -/
theorem init_aborts_only_on_missing_apiKey (rx : String → String → Option Bool)
    (cfg : TagticsConfig) (p : Page) (hkey : cfg.apiKey ≠ "") :
    (init rx cfg p).aborted = false
      ∧ (init rx cfg p).widgetShown
          = (!excludeHit rx cfg p.pathname && (!includeMiss rx cfg p.pathname
              && !(isLikelyPaymentPage p && !cfg.allowSensitivePages))) := by
  unfold init
  rw [if_neg hkey]
  exact ⟨rfl, shouldShow_eq_gates rx cfg p⟩

/-- Witness for the amended C4 at the both-rules configuration. -/
theorem init_aborts_only_on_missing_apiKey_witness :
    cfgBoth.apiKey ≠ ""
      ∧ ((init rxConcrete cfgBoth plainPage).aborted = false
        ∧ (init rxConcrete cfgBoth plainPage).widgetShown
            = (!excludeHit rxConcrete cfgBoth plainPage.pathname
                && (!includeMiss rxConcrete cfgBoth plainPage.pathname
                  && !(isLikelyPaymentPage plainPage
                        && !cfgBoth.allowSensitivePages)))) :=
  ⟨by decide, init_aborts_only_on_missing_apiKey rxConcrete cfgBoth plainPage
    (by decide)⟩

/-- C6: `sendFeedback` closes the editing UI optimistically — the modal
is closed and the selection cleared whatever the network outcome, and
the close effect precedes the single `fetch` in the effect trace — then
shows exactly one toast, success when the promise resolves, error when
it rejects; it emits no retry, queueing or persistence effect, and
exactly one send attempt. -/
theorem sendFeedback_optimistic_close_and_single_attempt (ui : UIState)
    (net : Except Unit Unit) :
    ((sendFeedback true ui net).1.modalOpen = false
      ∧ (sendFeedback true ui net).1.selectedElement = none
      ∧ (sendFeedback true ui net).1 = closeModal ui)
    ∧ (sendFeedback true ui net).2
        = [Effect.closeModalFx, Effect.fetchSend,
            match net with
            | .ok _ => Effect.toastSuccess
            | .error _ => Effect.toastError]
    ∧ ((sendFeedback true ui net).2.count Effect.fetchSend = 1
      ∧ (sendFeedback true ui net).2.count Effect.retrySend = 0
      ∧ (sendFeedback true ui net).2.count Effect.enqueueReport = 0
      ∧ (sendFeedback true ui net).2.count Effect.persistReport = 0)
    ∧ (sendFeedback true ui net).2.indexOf Effect.closeModalFx
        < (sendFeedback true ui net).2.indexOf Effect.fetchSend := by
  cases net <;>
    exact ⟨⟨rfl, rfl, rfl⟩, rfl, ⟨rfl, rfl, rfl, rfl⟩, Nat.zero_lt_one⟩
